import Mathlib

/-!
Shallow embedding of the `specialized-futures` crate: the `Poll` result type,
the poll-time `Context` (src/task/context.rs), the `Spawn` capability and its
error types (src/spawn/mod.rs), and the hand-rolled type-erasure machinery
`UnsafeFutureObj` / `LocalFutureObj` / `FutureObj` (src/future/future_obj.rs).

Machine state that Rust code mutates through raw pointers is threaded
explicitly as a value of an abstract world type `σ`; the opaque `*mut ()`
handle is an abstract type `Ptr`; the `&mut Context<S>` argument of a poll is
an abstract value of type `C` (its own mutable part also lives in `σ`).
-/

namespace SpecializedFutures

/-- Poll result of a future: `Ready(value)` or `Pending` (the `Poll<T>` type
used by `Future::poll`). -/
inductive Poll (T : Type) where
  | Ready (value : T)
  | Pending
  deriving DecidableEq

/-- Transferable wake handle `std::task::Waker`; `A` is the notification
target the handle denotes. -/
structure Waker (A : Type) where
  target : A
  deriving DecidableEq

/-- Thread-confined wake handle `std::task::LocalWaker`; it wraps the same
notification target as the `Waker` it can be reinterpreted as. -/
structure LocalWaker (A : Type) where
  target : A
  deriving DecidableEq

/-- The reinterpreting cast performed by `Context::waker`:
`&*(self.local_waker as *const LocalWaker as *const Waker)`. -/
def LocalWaker.as_waker {A : Type} (lw : LocalWaker A) : Waker A :=
  Waker.mk lw.target

/-- Context from src/task/context.rs: information about the currently-running
task, bundling the wake handle with the spawner (`local_waker: &'a LocalWaker`,
`spawner: &'a mut S`). -/
structure Context (A S : Type) where
  local_waker : LocalWaker A
  spawner : S

/-- Context::new: create a task context from the provided wake handle and
spawner. -/
def Context.new {A S : Type} (local_waker : LocalWaker A) (spawner : S) :
    Context A S :=
  Context.mk local_waker spawner

/-- Context::waker: the `Waker` associated with the current task, obtained by
reinterpreting the stored `LocalWaker`. (`Context::local_waker` is the field
accessor `Context.local_waker`.) -/
def Context.waker {A S : Type} (cx : Context A S) : Waker A :=
  cx.local_waker.as_waker

/-- Context::with_waker: a context like the current one but using the given
waker instead; the spawner is reborrowed from `self`, which is only read. -/
def Context.with_waker {A S : Type} (cx : Context A S)
    (local_waker : LocalWaker A) : Context A S :=
  Context.mk local_waker cx.spawner

/-- Context::with_spawner: a context like the current one but using the given
spawner instead; the wake handle is taken from `self`, which is only read. -/
def Context.with_spawner {A S S2 : Type} (cx : Context A S) (spawner : S2) :
    Context A S2 :=
  Context.mk cx.local_waker spawner

/-- SpawnErrorKind from src/spawn/mod.rs: the reason an executor was unable to
spawn; the struct holds only the hidden unit field `_hidden: ()`. -/
structure SpawnErrorKind where
  hidden : Unit
  deriving DecidableEq

/-- SpawnErrorKind::shutdown: spawning is failing because the executor has
been shut down. -/
def SpawnErrorKind.shutdown : SpawnErrorKind :=
  SpawnErrorKind.mk ()

/-- SpawnErrorKind::is_shutdown: check whether this error is the shutdown
error; the source body is the literal `true`. -/
def SpawnErrorKind.is_shutdown (_ : SpawnErrorKind) : Bool :=
  true

/-- SpawnObjError<F>: the result of a failed spawn, carrying the kind of error
and the future for which spawning inside a task was attempted. -/
structure SpawnObjError (F : Type) where
  kind : SpawnErrorKind
  future : F

/-- The Spawn trait: a spawner with internal state `σ` accepting futures of
type `F`. `spawn_obj` takes `&mut self` and the future and returns
`Result<(), SpawnObjError<F>>`; `status` takes `&self` and defaults to the
provided body `Ok(())`. -/
structure Spawn (σ F : Type) where
  spawn_obj : F → σ → Except (SpawnObjError F) Unit × σ
  status : σ → Except SpawnErrorKind Unit := fun _ => Except.ok ()

/-- The `impl<S: Spawn> Spawn for Box<S>` from src/spawn/mod.rs: `spawn_obj`
and `status` both forward to the dereferenced inner spawner. -/
def boxed_spawn {σ F : Type} (s : Spawn σ F) : Spawn σ F :=
  { spawn_obj := s.spawn_obj, status := s.status }

/-- The contract of §4.3 on `spawn_obj` implementors: when the spawn fails,
the error value hands back exactly the future that was passed in. -/
def Spawn.returns_original_future {σ F : Type} (sp : Spawn σ F) : Prop :=
  ∀ (f : F) (st : σ) (e : SpawnObjError F) (st2 : σ),
    sp.spawn_obj f st = (Except.error e, st2) → e.future = f

/-- A mock spawner that always fails, returning the shutdown kind and the
original future (the always-failing mock of spec §8). -/
def failing_spawner : Spawn Unit Nat :=
  { spawn_obj := fun f st =>
      (Except.error (SpawnObjError.mk SpawnErrorKind.shutdown f), st) }

/-- The UnsafeFutureObj trait from src/future/future_obj.rs, for a concrete
holder type `F`: `into_raw` consumes the holder into an opaque handle, `poll`
polls the future behind a handle, `drop` releases it. Effects on memory are
modelled by threading the world `σ`. -/
structure UnsafeFutureObj (Ptr T C σ F : Type) where
  into_raw : F → Ptr
  poll : Ptr → C → σ → Poll T × σ
  drop : Ptr → σ → σ

/-- LocalFutureObj<'a, T, S>: the thread-confined type-erased container,
holding the opaque handle `ptr: *mut ()` and the two captured function
pointers `poll_fn` and `drop_fn` (the `PhantomData` marker is zero-sized and
omitted). -/
structure LocalFutureObj (Ptr T C σ : Type) where
  ptr : Ptr
  poll_fn : Ptr → C → σ → Poll T × σ
  drop_fn : Ptr → σ → σ

/-- LocalFutureObj::new: capture `f.into_raw()` together with `F::poll` and
`F::drop` from the dispatch-table implementation. -/
def LocalFutureObj.new {Ptr T C σ F : Type} (I : UnsafeFutureObj Ptr T C σ F)
    (f : F) : LocalFutureObj Ptr T C σ :=
  LocalFutureObj.mk (I.into_raw f) I.poll I.drop

/-- Future::poll for LocalFutureObj: `(self.poll_fn)(self.ptr, cx)`. -/
def LocalFutureObj.poll {Ptr T C σ : Type} (x : LocalFutureObj Ptr T C σ)
    (cx : C) (s : σ) : Poll T × σ :=
  x.poll_fn x.ptr cx s

/-- Drop for LocalFutureObj: `(self.drop_fn)(self.ptr)`. -/
def LocalFutureObj.drop {Ptr T C σ : Type} (x : LocalFutureObj Ptr T C σ)
    (s : σ) : σ :=
  x.drop_fn x.ptr s

/-- FutureObj<'a, T, S>: the transferable container, a newtype over
`LocalFutureObj` (its single tuple field `.0`). -/
structure FutureObj (Ptr T C σ : Type) where
  inner : LocalFutureObj Ptr T C σ

/-- FutureObj::new: wrap `LocalFutureObj::new(f)`. -/
def FutureObj.new {Ptr T C σ F : Type} (I : UnsafeFutureObj Ptr T C σ F)
    (f : F) : FutureObj Ptr T C σ :=
  FutureObj.mk (LocalFutureObj.new I f)

/-- Future::poll for FutureObj: pin-project to the `.0` field and poll it. -/
def FutureObj.poll {Ptr T C σ : Type} (x : FutureObj Ptr T C σ) (cx : C)
    (s : σ) : Poll T × σ :=
  x.inner.poll cx s

/-- From<FutureObj> for LocalFutureObj: the conversion returns `f.0`. -/
def LocalFutureObj.from_future_obj {Ptr T C σ : Type}
    (f : FutureObj Ptr T C σ) : LocalFutureObj Ptr T C σ :=
  f.inner

/-- LocalFutureObj::into_future_obj: wrap `self` into `FutureObj(self)`. -/
def LocalFutureObj.into_future_obj {Ptr T C σ : Type}
    (x : LocalFutureObj Ptr T C σ) : FutureObj Ptr T C σ :=
  FutureObj.mk x

/-- One raw dispatch-table invocation observed at the opaque-handle boundary:
which captured function pointer ran, and on which handle. -/
inductive DispatchCall (Ptr C : Type) where
  | poll (p : Ptr) (cx : C)
  | release (p : Ptr)

/-- Whether a dispatch call is the release (drop) call. -/
def DispatchCall.is_release {Ptr C : Type} : DispatchCall Ptr C → Bool
  | DispatchCall.poll _ _ => false
  | DispatchCall.release _ => true

/-- Executor-side lifetime of a `LocalFutureObj` under Rust ownership: the
container is polled once per context in `polls` (each poll executes
`(self.poll_fn)(self.ptr, cx)`), then goes out of scope, at which point its
`Drop` impl executes `(self.drop_fn)(self.ptr)`. Returns the final world
state together with the sequence of dispatch-table calls made on the opaque
handle. -/
def LocalFutureObj.lifetime {Ptr T C σ : Type} (x : LocalFutureObj Ptr T C σ)
    (polls : List C) (s : σ) : σ × List (DispatchCall Ptr C) :=
  match polls with
  | [] => (x.drop s, [DispatchCall.release x.ptr])
  | cx :: rest =>
    let next := x.lifetime rest (x.poll cx s).2
    (next.1, DispatchCall.poll x.ptr cx :: next.2)

/-- Running only the poll phase of a lifetime: fold the polls over the world
state. -/
def LocalFutureObj.run_polls {Ptr T C σ : Type} (x : LocalFutureObj Ptr T C σ)
    (polls : List C) (s : σ) : σ :=
  polls.foldl (fun st cx => (x.poll cx st).2) s

/-- Executor-side lifetime of a `FutureObj`: its derived Drop drops the inner
`LocalFutureObj`, and its poll forwards to the inner container, so its
lifetime is the inner container's lifetime. -/
def FutureObj.lifetime {Ptr T C σ : Type} (x : FutureObj Ptr T C σ)
    (polls : List C) (s : σ) : σ × List (DispatchCall Ptr C) :=
  x.inner.lifetime polls s

/-- The container's state content: a `LocalFutureObj` is exactly one opaque
handle together with the two captured function pointers. -/
def LocalFutureObj.equiv_components (Ptr T C σ : Type) :
    LocalFutureObj Ptr T C σ ≃
      Ptr × (Ptr → C → σ → Poll T × σ) × (Ptr → σ → σ) where
  toFun x := (x.ptr, x.poll_fn, x.drop_fn)
  invFun p := LocalFutureObj.mk p.1 p.2.1 p.2.2
  left_inv := fun _ => rfl
  right_inv := fun _ => rfl

/-- A concrete Future implementation with explicit state `St`: polling steps
the state and yields a poll result. -/
structure FutureImpl (St T C : Type) where
  poll : St → C → Poll T × St

/-- The blanket `UnsafeFutureObj` impl for `&'a mut F` where `F: Unpin`, over
a heap of future states addressed by `Nat`: `into_raw` returns the referent's
address (`self as *mut F as *mut ()`), `poll` dereferences the address and
polls the future in place, and `drop` is a no-op (`fn drop(_ptr) {}`). -/
def mut_ref_obj {St T C : Type} (FI : FutureImpl St T C) :
    UnsafeFutureObj Nat T C (Nat → St) Nat where
  into_raw := fun addr => addr
  poll := fun p cx h =>
    ((FI.poll (h p) cx).1, fun q => if q = p then (FI.poll (h p) cx).2 else h q)
  drop := fun _ h => h

/-- Poll T is Option T up to relabelling (used for counting). -/
def Poll.equiv_option (T : Type) : Poll T ≃ Option T where
  toFun x :=
    match x with
    | Poll.Ready t => some t
    | Poll.Pending => none
  invFun o :=
    match o with
    | some t => Poll.Ready t
    | none => Poll.Pending
  left_inv x := by cases x <;> rfl
  right_inv o := by cases o <;> rfl

instance {T : Type} [Fintype T] : Fintype (Poll T) :=
  Fintype.ofEquiv (Option T) (Poll.equiv_option T).symm

/-! ## Shared lemmas -/

theorem is_release_poll {Ptr C : Type} (p : Ptr) (cx : C) :
    (DispatchCall.poll p cx).is_release = false := rfl

theorem is_release_release {Ptr C : Type} (p : Ptr) :
    (DispatchCall.release p : DispatchCall Ptr C).is_release = true := rfl

/-- The dispatch calls a container's lifetime makes on its handle: one poll
call per executor poll, then the single release from the Drop impl. -/
theorem lifetime_trace {Ptr T C σ : Type} (x : LocalFutureObj Ptr T C σ)
    (polls : List C) (s : σ) :
    (x.lifetime polls s).2 =
      polls.map (fun cx => DispatchCall.poll x.ptr cx) ++
        [DispatchCall.release x.ptr] := by
  induction polls generalizing s with
  | nil => rfl
  | cons cx rest ih => simp [LocalFutureObj.lifetime, ih]

/-- The final state of a container's lifetime: the drop function applied to
the state the polls left behind. -/
theorem lifetime_state {Ptr T C σ : Type} (x : LocalFutureObj Ptr T C σ)
    (polls : List C) (s : σ) :
    (x.lifetime polls s).1 = x.drop (x.run_polls polls s) := by
  induction polls generalizing s with
  | nil => rfl
  | cons cx rest ih => simp [LocalFutureObj.lifetime, LocalFutureObj.run_polls,
      ih, List.foldl_cons]

/-- Nothing follows the release call in a container's lifetime trace. -/
theorem no_call_after_release {Ptr T C σ : Type} (x : LocalFutureObj Ptr T C σ)
    (polls : List C) (s : σ) (pre post : List (DispatchCall Ptr C))
    (h : (x.lifetime polls s).2 = pre ++ DispatchCall.release x.ptr :: post) :
    post = [] := by
  rw [lifetime_trace] at h
  rcases List.eq_nil_or_concat post with hp | ⟨post2, c, rfl⟩
  · exact hp
  · exfalso
    rw [List.concat_eq_append, ← List.cons_append, ← List.append_assoc] at h
    have h2 := congrArg List.dropLast h
    rw [List.dropLast_concat, List.dropLast_concat] at h2
    have hmem : DispatchCall.release x.ptr ∈
        polls.map (fun cx => DispatchCall.poll x.ptr cx) := by
      rw [h2]
      exact List.mem_append_right _ (List.mem_cons_self _ _)
    rcases List.mem_map.mp hmem with ⟨cx, _, hcx⟩
    exact DispatchCall.noConfusion hcx

/-- A lifetime trace contains exactly one release call. -/
theorem lifetime_one_release {Ptr T C σ : Type} (x : LocalFutureObj Ptr T C σ)
    (polls : List C) (s : σ) :
    ((x.lifetime polls s).2.countP (fun c => c.is_release)) = 1 := by
  rw [lifetime_trace, List.countP_append]
  have h1 : List.countP (fun c => c.is_release)
      (polls.map (fun cx => DispatchCall.poll x.ptr cx)) = 0 := by
    rw [List.countP_eq_zero]
    intro a ha
    rcases List.mem_map.mp ha with ⟨cx, _, rfl⟩
    simp [DispatchCall.is_release]
  rw [h1]
  simp [List.countP_cons, DispatchCall.is_release]

/-- The release call is the last call of a lifetime trace. -/
theorem lifetime_last_release {Ptr T C σ : Type} (x : LocalFutureObj Ptr T C σ)
    (polls : List C) (s : σ) :
    (x.lifetime polls s).2.getLast? = some (DispatchCall.release x.ptr) := by
  rw [lifetime_trace]
  exact List.getLast?_concat _

/-- Every call of a lifetime trace applies one of the container's two captured
function pointers to the container's own captured handle. -/
theorem lifetime_calls_use_captured {Ptr T C σ : Type}
    (x : LocalFutureObj Ptr T C σ) (polls : List C) (s : σ)
    (c : DispatchCall Ptr C) (hc : c ∈ (x.lifetime polls s).2) :
    (∃ cx, c = DispatchCall.poll x.ptr cx) ∨ c = DispatchCall.release x.ptr := by
  rw [lifetime_trace] at hc
  rcases List.mem_append.mp hc with hm | hm
  · rcases List.mem_map.mp hm with ⟨cx, _, hcx⟩
    exact Or.inl ⟨cx, hcx.symm⟩
  · rcases List.mem_singleton.mp hm with rfl
    exact Or.inr rfl

/-- Cardinality of the poll result type. -/
theorem poll_card (T : Type) [Fintype T] :
    Fintype.card (Poll T) = Fintype.card T + 1 :=
  (Fintype.card_congr (Poll.equiv_option T)).trans (Fintype.card_option)

/-! ## Claim theorems -/

/-- C1: for every type-erased future container (confined `LocalFutureObj` or
transferable `FutureObj`) and every poll schedule, the container's lifetime
makes exactly one release (drop) call on the captured opaque handle; that
call happens automatically when the container is destroyed (it is the last
dispatch call, and it happens even when the container was never polled), and
no poll through the container occurs after it. -/
theorem release_called_exactly_once {Ptr T C σ : Type}
    (x : LocalFutureObj Ptr T C σ) (fo : FutureObj Ptr T C σ)
    (polls polls2 : List C) (s s2 : σ) :
    ((x.lifetime polls s).2.countP (fun c => c.is_release)) = 1 ∧
    (x.lifetime polls s).2.getLast? = some (DispatchCall.release x.ptr) ∧
    (∀ pre post, (x.lifetime polls s).2 =
        pre ++ DispatchCall.release x.ptr :: post → post = []) ∧
    (x.lifetime [] s).2 = [DispatchCall.release x.ptr] ∧
    ((fo.lifetime polls2 s2).2.countP (fun c => c.is_release)) = 1 ∧
    (fo.lifetime polls2 s2).2.getLast? =
      some (DispatchCall.release fo.inner.ptr) :=
  ⟨lifetime_one_release x polls s, lifetime_last_release x polls s,
    fun pre post hEq => no_call_after_release x polls s pre post hEq,
    rfl,
    lifetime_one_release fo.inner polls2 s2,
    lifetime_last_release fo.inner polls2 s2⟩

/-- C2: converting a transferable `FutureObj` into a confined `LocalFutureObj`
via the plain `From` conversion and then polling yields a result identical to
polling the transferable container directly, and the conversion preserves the
opaque handle and both captured function pointers unchanged. -/
theorem future_obj_into_local_round_trip {Ptr T C σ : Type}
    (f : FutureObj Ptr T C σ) (cx : C) (s : σ) :
    (LocalFutureObj.from_future_obj f).poll cx s = f.poll cx s ∧
    (LocalFutureObj.from_future_obj f).ptr = f.inner.ptr ∧
    (LocalFutureObj.from_future_obj f).poll_fn = f.inner.poll_fn ∧
    (LocalFutureObj.from_future_obj f).drop_fn = f.inner.drop_fn :=
  ⟨rfl, rfl, rfl, rfl⟩

/-- C3: for every dispatch-table implementation `I` and instance `f`,
`LocalFutureObj::new` (and `FutureObj::new`) captures the handle
`I.into_raw f` together with the `poll` and `drop` function pointers, and
every subsequent poll of the container invokes the captured poll function
pointer on the captured handle and returns its result unchanged. -/
theorem new_captures_and_poll_forwards {Ptr T C σ F : Type}
    (I : UnsafeFutureObj Ptr T C σ F) (f : F) (cx : C) (s : σ) :
    (LocalFutureObj.new I f).ptr = I.into_raw f ∧
    (LocalFutureObj.new I f).poll_fn = I.poll ∧
    (LocalFutureObj.new I f).drop_fn = I.drop ∧
    (LocalFutureObj.new I f).poll cx s = I.poll (I.into_raw f) cx s ∧
    (FutureObj.new I f).poll cx s = I.poll (I.into_raw f) cx s :=
  ⟨rfl, rfl, rfl, rfl, rfl⟩

/-- C4 counterexample: the claim says the container owns one opaque handle
plus THREE function pointers; at concrete instantiations of the type
parameters the container is not in bijection with a handle plus three
function pointers (here the poll pointer, the release pointer, and one more
pointer of the poll pointer's shape): the struct has only two function
pointer fields. -/
theorem container_not_three_fn_pointers :
    ¬ Nonempty (LocalFutureObj Unit Unit Unit Unit ≃
      Unit × (Unit → Unit → Unit → Poll Unit × Unit) × (Unit → Unit → Unit) ×
        (Unit → Unit → Unit → Poll Unit × Unit)) := by
  rintro ⟨e⟩
  have e2 := (LocalFutureObj.equiv_components Unit Unit Unit Unit).symm.trans e
  have hc := Fintype.card_congr e2
  simp only [Fintype.card_prod, Fintype.card_fun, poll_card,
    Fintype.card_unit] at hc
  norm_num at hc

/-- C4 (amended): every type-erased future container owns exactly one opaque
data handle plus two function pointers (poll, release) captured at
construction time from the concrete future's dispatch-table implementation
(the container's state is exactly that triple, and construction fills it from
`into_raw`, `poll` and `drop`), and the opaque handle is never operated on by
any function pointer other than the ones captured alongside it: every
dispatch call of a container's lifetime applies one of its two captured
function pointers to its own captured handle. -/
theorem container_one_handle_two_fn_pointers {Ptr T C σ F : Type}
    (I : UnsafeFutureObj Ptr T C σ F) (f : F)
    (x : LocalFutureObj Ptr T C σ) (polls : List C) (s : σ) :
    LocalFutureObj.equiv_components Ptr T C σ (LocalFutureObj.new I f) =
      (I.into_raw f, I.poll, I.drop) ∧
    (FutureObj.new I f).inner = LocalFutureObj.new I f ∧
    (∀ c ∈ (x.lifetime polls s).2,
      (∃ cx, c = DispatchCall.poll x.ptr cx) ∨
        c = DispatchCall.release x.ptr) :=
  ⟨rfl, rfl, fun c hc => lifetime_calls_use_captured x polls s c hc⟩

/-- C5: a failed spawn synchronously returns an error value carrying an
error-kind classification together with the caller's future; the error
struct hands back the kind and the future it is built from, and the
repository's `Spawn for Box<S>` impl forwards `spawn_obj` to the wrapped
spawner unchanged, so it hands back the exact original future whenever the
wrapped spawner does — a failed spawn never silently discards the caller's
future. -/
theorem spawn_failure_returns_original_future {σ F : Type} (sp : Spawn σ F)
    (h : sp.returns_original_future) :
    (boxed_spawn sp).returns_original_future ∧
    (∀ f st, (boxed_spawn sp).spawn_obj f st = sp.spawn_obj f st) ∧
    (∀ (k : SpawnErrorKind) (f : F),
      (SpawnObjError.mk k f).future = f ∧ (SpawnObjError.mk k f).kind = k) :=
  ⟨h, fun _ _ => rfl, fun _ _ => ⟨rfl, rfl⟩⟩

/-- C5 witness: the always-failing mock spawner returns the original future
inside the error, and so does its boxed form. -/
theorem spawn_failure_returns_original_future_witness :
    (boxed_spawn failing_spawner).returns_original_future ∧
    (∀ f st, (boxed_spawn failing_spawner).spawn_obj f st =
      failing_spawner.spawn_obj f st) ∧
    (∀ (k : SpawnErrorKind) (f : Nat),
      (SpawnObjError.mk k f).future = f ∧ (SpawnObjError.mk k f).kind = k) :=
  spawn_failure_returns_original_future failing_spawner
    (fun f st e st2 hEq => by
      have h1 : (Except.error (SpawnObjError.mk SpawnErrorKind.shutdown f) :
          Except (SpawnObjError Nat) Unit) = Except.error e :=
        congrArg Prod.fst hEq
      injection h1 with h3
      rw [← h3])

/-- C6: substituting the wake handle via `with_waker` produces a context
whose wake handle is the new one and whose spawner is the original context's
spawner; substituting the spawner via `with_spawner` produces a context whose
spawner is the new one and whose wake handle is the original context's wake
handle. Both methods only read `self` (the embedding is a pure function of
the original context), so the original context's own wake handle and spawner
are unaffected once the narrowed context goes out of scope. -/
theorem with_waker_with_spawner_substitution {A S S2 : Type}
    (cx : Context A S) (w : LocalWaker A) (sp : S2) :
    (cx.with_waker w).local_waker = w ∧
    (cx.with_waker w).spawner = cx.spawner ∧
    (cx.with_spawner sp).spawner = sp ∧
    (cx.with_spawner sp).local_waker = cx.local_waker :=
  ⟨rfl, rfl, rfl, rfl⟩

/-- C7: for every poll context, `local_waker` and `waker` both return the
wake handle supplied when the context was constructed — in its thread-confined
and transferable forms respectively — and the two returned handles denote the
same notification target. -/
theorem waker_local_waker_same_target {A S : Type} (w : LocalWaker A)
    (sp : S) :
    (Context.new w sp).local_waker = w ∧
    (Context.new w sp).waker = w.as_waker ∧
    ((Context.new w sp).waker).target =
      ((Context.new w sp).local_waker).target :=
  ⟨rfl, rfl, rfl⟩

/-- C8: `is_shutdown` returns `true` on every `SpawnErrorKind` value,
including every value produced by `SpawnErrorKind::shutdown`, regardless of
the actual error kind. -/
theorem is_shutdown_always_true :
    (∀ k : SpawnErrorKind, k.is_shutdown = true) ∧
    SpawnErrorKind.shutdown.is_shutdown = true :=
  ⟨fun _ => rfl, rfl⟩

/-- C9: for every spawner that does not override it, the default
implementation of the `status` readiness probe returns `Ok` regardless of the
spawner's state. -/
theorem default_status_reports_healthy {σ F : Type}
    (so : F → σ → Except (SpawnObjError F) Unit × σ) (st : σ) :
    ({ spawn_obj := so } : Spawn σ F).status st = Except.ok () :=
  rfl

/-- C10: the blanket dispatch-table implementation for a mutable reference to
a relocatable future makes `into_raw` return the address of the referenced
future and makes the release function a no-op; destroying a container built
from such a reference leaves the underlying future's state (the heap) exactly
as the polls left it — the container's single release performs no
destruction. -/
theorem mut_ref_release_no_op {St T C : Type} (FI : FutureImpl St T C)
    (a p : Nat) (heap : Nat → St) (polls : List C) :
    (mut_ref_obj FI).into_raw a = a ∧
    (mut_ref_obj FI).drop p heap = heap ∧
    (LocalFutureObj.new (mut_ref_obj FI) a).drop heap = heap ∧
    ((LocalFutureObj.new (mut_ref_obj FI) a).lifetime polls heap).1 =
      (LocalFutureObj.new (mut_ref_obj FI) a).run_polls polls heap :=
  ⟨rfl, rfl, rfl, by rw [lifetime_state]; rfl⟩

end SpecializedFutures
